import Mathlib

/-!
Verification of the photo-enhancer dispatch/fallback core.

The source is a single Python file built around class `ImageEnhancer`
(fields `gfpgan_model`, `upsampler`, `device`, `models_loaded`), whose
methods `load_models`, `enhance_image` and `_advanced_face_enhancement`
form the ModelRegistry / EnhancementDispatcher / FallbackFilters core.

The embedding below is a shallow translation of that core:

* `Img` is the in-memory pixel buffer (height, width, channel count and a
  flattened sample list); the external OpenCV / rembg / neural-backend
  primitives act on it through an explicit `Env` of fallible functions
  (`Except Unit Img`), since their pixel-level behaviour is third-party
  library code, not code of this repository.  Their documented shape
  contracts (same-size filters, resize to the requested size, ...) are
  collected in `EnvSpec`.
* Python exceptions are modelled by `Except`.  Inside the `try` block of
  `enhance_image` the error payload carries the *current* value of the
  local variable `img_array`, because the `except` handler returns
  whatever `img_array` is bound to at the moment the exception is raised.
* `load_models` is a state transition on `EnhancerState`; the outcomes of
  the external world during one call (which weight files exist, whether
  each backend constructor succeeds) form a `LoadEnv`.
-/

/-- An in-memory image: height, width, channel count and the flattened
8-bit samples (`np.ndarray` of shape H×W×C in the source). -/
structure Img where
  h : Nat
  w : Nat
  c : Nat
  data : List Nat
  deriving DecidableEq, Repr

/-- Torch device selected in `__init__`: `'cuda' if torch.cuda.is_available() else 'cpu'`. -/
inductive Device where
  | cuda
  | cpu
  deriving DecidableEq, Repr

/-- Colour-conversion codes actually used by the source. -/
inductive ColorCode where
  | RGB2BGR
  | BGR2RGB
  | RGB2LAB
  | LAB2RGB
  deriving DecidableEq, Repr

/-- Interpolation modes for `cv2.resize`; the source passes `cv2.INTER_CUBIC`. -/
inductive Interp where
  | INTER_LINEAR
  | INTER_CUBIC
  deriving DecidableEq, Repr

/-- The mutable attributes of an `ImageEnhancer` instance. `gfpgan_model`
and `upsampler` record Python truthiness of the two backend objects
(`None` ↦ `false`, a loaded backend ↦ `true`). -/
structure EnhancerState where
  gfpgan_model : Bool
  upsampler : Bool
  device : Device
  models_loaded : Bool
  deriving DecidableEq, Repr

/-- State produced by `ImageEnhancer.__init__`: both backends `None`,
device chosen from CUDA availability, `models_loaded = False`. -/
def initState (cuda_available : Bool) : EnhancerState :=
  EnhancerState.mk false false (if cuda_available then Device.cuda else Device.cpu) false

/-- Outcomes of the external world during one call of `load_models`:
whether each weight file of `MODEL_PATHS` exists (`os.path.exists`), and
whether each backend constructor (`GFPGANer`, resp. the
`basicsr`/`RealESRGANer` imports and constructors) returns normally
(`Except.ok`) or raises (`Except.error`). -/
structure LoadEnv where
  gfpganFileExists : Bool
  realesrganFileExists : Bool
  gfpganLoad : Except Unit Unit
  realesrganLoad : Except Unit Unit

/-- Translation of `ImageEnhancer.load_models`.  The whole body after the
`models_loaded` guard is one `try` block: the existence of both weight
files is checked first (`GFPGAN` then `RealESRGAN`, raising
`FileNotFoundError` at the first missing one), then `self.gfpgan_model`
is assigned, then `self.upsampler`, then `models_loaded = True`.  The
`except` clause only logs, so a raise at any point leaves all attributes
assigned so far in place and returns. -/
def load_models (lenv : LoadEnv) (self : EnhancerState) : EnhancerState :=
  if self.models_loaded = true then self
  else if lenv.gfpganFileExists = false then self
  else if lenv.realesrganFileExists = false then self
  else
    match lenv.gfpganLoad with
    | Except.error _ => self
    | Except.ok _ =>
      match lenv.realesrganLoad with
      | Except.error _ =>
        EnhancerState.mk true self.upsampler self.device self.models_loaded
      | Except.ok _ =>
        EnhancerState.mk true true self.device true

/-- The external image primitives used by the dispatcher: OpenCV calls,
`rembg.remove`, the two neural backends, and the two numpy dtype
conversions of the neural super-resolution path.  Each may raise, hence
`Except Unit _`.  Argument order follows the source call sites
(`resize` takes the `dsize` pair `(width, height)`;
`claheApply clip tw th l` is `cv2.createCLAHE(clipLimit=clip,
tileGridSize=(tw, th)).apply(l)`; `gfpganEnhance img has_aligned
only_center_face paste_back weight` returns the third component of
`GFPGANer.enhance`). -/
structure Env where
  cvtColor : Img → ColorCode → Except Unit Img
  split3 : Img → Except Unit (Img × Img × Img)
  merge3 : Img → Img → Img → Except Unit Img
  claheApply : ℚ → Nat → Nat → Img → Except Unit Img
  filter2D : Img → Int → List (List Int) → Except Unit Img
  fastNlMeansDenoisingColored : Img → Int → Int → Int → Int → Except Unit Img
  bilateralFilter : Img → Int → Int → Int → Except Unit Img
  resize : Img → Nat → Nat → Interp → Except Unit Img
  rembgRemove : Img → Except Unit Img
  astypeF32div255 : Img → Except Unit Img
  times255clipU8 : Img → Except Unit Img
  upsamplerEnhance : Img → Int → Except Unit Img
  gfpganEnhance : Img → Bool → Bool → Bool → ℚ → Except Unit Img

/-- Blend weight passed to `GFPGANer.enhance`:
`weight=min(0.5 + strength/20, 0.9)` (Python true division, hence ℚ). -/
def blendWeight (strength : Int) : ℚ :=
  min (1/2 + (strength : ℚ)/20) (9/10)

/-- Translation of `ImageEnhancer._advanced_face_enhancement`: CLAHE on
the L channel of LAB (clipLimit 3.0, tiles 8×8), then `filter2D` with the
fixed 3×3 kernel, then `bilateralFilter(output, 9, 75, 75)`.  An
exception anywhere propagates to the caller (`Except.error ()`). -/
def advanced_face_enhancement (env : Env) (img_array : Img) : Except Unit Img :=
  match env.cvtColor img_array ColorCode.RGB2LAB with
  | Except.error _ => Except.error ()
  | Except.ok lab =>
    match env.split3 lab with
    | Except.error _ => Except.error ()
    | Except.ok (l, a, b) =>
      match env.claheApply 3 8 8 l with
      | Except.error _ => Except.error ()
      | Except.ok cl =>
        match env.merge3 cl a b with
        | Except.error _ => Except.error ()
        | Except.ok limg =>
          match env.cvtColor limg ColorCode.LAB2RGB with
          | Except.error _ => Except.error ()
          | Except.ok output =>
            match env.filter2D output (-1) [[0,-1,0],[-1,5,-1],[0,-1,0]] with
            | Except.error _ => Except.error ()
            | Except.ok output2 =>
              env.bilateralFilter output2 9 75 75

/-- Body of the `try` block of `ImageEnhancer.enhance_image`, dispatching
on `enhancement_type` over the already-loaded state.  An `Except.error`
carries the value of the local `img_array` at the point the exception is
raised (the neural branches rebind `img_array` before their fallible
calls), because the `except` handler returns that local. -/
def enhance_try (env : Env) (loaded : EnhancerState) (img_array : Img)
    (enhancement_type : String) (strength : Int) : Except Img Img :=
  if enhancement_type = "Super Resolution" then
    if loaded.upsampler = true then
      match env.cvtColor img_array ColorCode.RGB2BGR with
      | Except.error _ => Except.error img_array
      | Except.ok a1 =>
        match env.astypeF32div255 a1 with
        | Except.error _ => Except.error a1
        | Except.ok a2 =>
          match env.upsamplerEnhance a2 4 with
          | Except.error _ => Except.error a2
          | Except.ok o1 =>
            match env.times255clipU8 o1 with
            | Except.error _ => Except.error a2
            | Except.ok o2 =>
              match env.cvtColor o2 ColorCode.BGR2RGB with
              | Except.error _ => Except.error a2
              | Except.ok o3 => Except.ok o3
    else
      match env.resize img_array (img_array.w * 2) (img_array.h * 2) Interp.INTER_CUBIC with
      | Except.error _ => Except.error img_array
      | Except.ok output => Except.ok output
  else if enhancement_type = "Face Enhancement" then
    if loaded.gfpgan_model = true then
      match env.cvtColor img_array ColorCode.RGB2BGR with
      | Except.error _ => Except.error img_array
      | Except.ok a1 =>
        match env.gfpganEnhance a1 false false true (blendWeight strength) with
        | Except.error _ => Except.error a1
        | Except.ok o1 =>
          match env.cvtColor o1 ColorCode.BGR2RGB with
          | Except.error _ => Except.error a1
          | Except.ok o2 => Except.ok o2
    else
      match advanced_face_enhancement env img_array with
      | Except.error _ => Except.error img_array
      | Except.ok output => Except.ok output
  else if enhancement_type = "Denoise" then
    match env.fastNlMeansDenoisingColored img_array strength strength 7 21 with
    | Except.error _ => Except.error img_array
    | Except.ok output => Except.ok output
  else if enhancement_type = "Sharpen" then
    match env.filter2D img_array (-1) [[0,-1,0],[-1,5,-1],[0,-1,0]] with
    | Except.error _ => Except.error img_array
    | Except.ok output => Except.ok output
  else if enhancement_type = "Remove Background" then
    match env.rembgRemove img_array with
    | Except.error _ => Except.error img_array
    | Except.ok output => Except.ok output
  else if enhancement_type = "Color Correction" then
    match env.cvtColor img_array ColorCode.RGB2LAB with
    | Except.error _ => Except.error img_array
    | Except.ok lab =>
      match env.split3 lab with
      | Except.error _ => Except.error img_array
      | Except.ok (l, a, b) =>
        match env.claheApply 3 8 8 l with
        | Except.error _ => Except.error img_array
        | Except.ok cl =>
          match env.merge3 cl a b with
          | Except.error _ => Except.error img_array
          | Except.ok limg =>
            match env.cvtColor limg ColorCode.LAB2RGB with
            | Except.error _ => Except.error img_array
            | Except.ok output => Except.ok output
  else
    Except.ok img_array

/-- Translation of `ImageEnhancer.enhance_image`: call `self.load_models()`
first, then run the `try` block on the loaded state; on success return
`output`, and in the `except` clause return the current `img_array`. -/
def enhance_image (lenv : LoadEnv) (env : Env) (self : EnhancerState)
    (image : Img) (enhancement_type : String) (strength : Int) : Img :=
  match enhance_try env (load_models lenv self) image enhancement_type strength with
  | Except.ok output => output
  | Except.error cur => cur

/-- Documented shape contracts of the external OpenCV primitives
(same-size filters; `split` yields single-channel planes; `merge` of
three planes yields three channels; `resize` returns exactly the
requested `dsize`).  These are the collaborators' contracts, not code of
this repository. -/
structure EnvSpec (env : Env) : Prop where
  cvtColor_shape : ∀ i c r, env.cvtColor i c = Except.ok r →
    r.h = i.h ∧ r.w = i.w ∧ r.c = i.c
  split3_shape : ∀ i l a b, env.split3 i = Except.ok (l, a, b) →
    (l.h = i.h ∧ l.w = i.w ∧ l.c = 1) ∧ (a.h = i.h ∧ a.w = i.w ∧ a.c = 1) ∧
    (b.h = i.h ∧ b.w = i.w ∧ b.c = 1)
  merge3_shape : ∀ x y z r, env.merge3 x y z = Except.ok r →
    r.h = x.h ∧ r.w = x.w ∧ r.c = 3
  clahe_shape : ∀ cl tw th i r, env.claheApply cl tw th i = Except.ok r →
    r.h = i.h ∧ r.w = i.w ∧ r.c = i.c
  filter2D_shape : ∀ i d k r, env.filter2D i d k = Except.ok r →
    r.h = i.h ∧ r.w = i.w ∧ r.c = i.c
  bilateral_shape : ∀ i d sc ss r, env.bilateralFilter i d sc ss = Except.ok r →
    r.h = i.h ∧ r.w = i.w ∧ r.c = i.c
  fastNl_shape : ∀ i a b t s r, env.fastNlMeansDenoisingColored i a b t s = Except.ok r →
    r.h = i.h ∧ r.w = i.w ∧ r.c = i.c
  resize_shape : ∀ i dw dh interp r, env.resize i dw dh interp = Except.ok r →
    r.w = dw ∧ r.h = dh ∧ r.c = i.c

/-- Reachable states of an `ImageEnhancer`: the freshly constructed state,
and anything produced from a reachable state by one `load_models` call
(every `enhance_image` call performs exactly one such transition, with
the outcomes of the external world arbitrary at each call). -/
inductive Reachable : EnhancerState → Prop where
  | start (cuda : Bool) : Reachable (initState cuda)
  | step (lenv : LoadEnv) (s : EnhancerState) : Reachable s → Reachable (load_models lenv s)

/-- Benign concrete environment used by witnesses: every primitive
succeeds and returns an image of the shape its OpenCV contract promises. -/
def idEnv : Env :=
  Env.mk
    (fun i _ => Except.ok i)
    (fun i => Except.ok (Img.mk i.h i.w 1 [], Img.mk i.h i.w 1 [], Img.mk i.h i.w 1 []))
    (fun x _ _ => Except.ok (Img.mk x.h x.w 3 x.data))
    (fun _ _ _ i => Except.ok i)
    (fun i _ _ => Except.ok i)
    (fun i _ _ _ _ => Except.ok i)
    (fun i _ _ _ => Except.ok i)
    (fun i dw dh _ => Except.ok (Img.mk dh dw i.c i.data))
    (fun i => Except.ok (Img.mk i.h i.w 4 i.data))
    (fun i => Except.ok i)
    (fun i => Except.ok i)
    (fun i _ => Except.ok i)
    (fun i _ _ _ _ => Except.ok i)

/-- Concrete environment modelling a failing super-resolution backend:
`cvtColor` reverses the sample list (for a single RGB pixel this is
exactly the RGB↔BGR swap), the numpy dtype conversions are modelled as
the identity on the abstract samples, and `upsamplerEnhance` raises
(e.g. an out-of-memory or backend error during inference). -/
def envSwap : Env :=
  Env.mk
    (fun i _ => Except.ok (Img.mk i.h i.w i.c i.data.reverse))
    (fun i => Except.ok (i, i, i))
    (fun x _ _ => Except.ok x)
    (fun _ _ _ i => Except.ok i)
    (fun i _ _ => Except.ok i)
    (fun i _ _ _ _ => Except.ok i)
    (fun i _ _ _ => Except.ok i)
    (fun i _ _ _ => Except.ok i)
    (fun i => Except.ok i)
    (fun i => Except.ok i)
    (fun i => Except.ok i)
    (fun _ _ => Except.error ())
    (fun i _ _ _ _ => Except.ok i)

/-- Concrete environment modelling a loaded face-restoration backend:
`GFPGANer` is constructed with `upscale=2` in `load_models`, so its
`enhance` returns an image twice the input height and width; every other
primitive is benign and shape-preserving. -/
def envUp2 : Env :=
  Env.mk
    (fun i _ => Except.ok i)
    (fun i => Except.ok (i, i, i))
    (fun x _ _ => Except.ok x)
    (fun _ _ _ i => Except.ok i)
    (fun i _ _ => Except.ok i)
    (fun i _ _ _ _ => Except.ok i)
    (fun i _ _ _ => Except.ok i)
    (fun i _ _ _ => Except.ok i)
    (fun i => Except.ok i)
    (fun i => Except.ok i)
    (fun i => Except.ok i)
    (fun i _ => Except.ok i)
    (fun i _ _ _ _ => Except.ok (Img.mk (2 * i.h) (2 * i.w) 3 []))

/-- Proof that the benign environment satisfies the OpenCV shape contracts. -/
theorem envSpec_idEnv : EnvSpec idEnv := by
  constructor <;> intros <;> rename_i h <;>
    simp only [idEnv, Except.ok.injEq, Prod.mk.injEq] at h <;>
    obtain ⟨rfl, rfl, rfl⟩ := h <;> simp

/-- C2 counterexample: with the GFPGAN weight file missing but the
RealESRGAN weight file present and its load bound to succeed, the
registry still leaves the super-resolution backend unavailable — the
`for` loop raises `FileNotFoundError` at the first missing path, inside
the single `try` block, before any load is attempted.  This refutes
"a failure of one backend never prevents the other backend from becoming
available". -/
theorem spec_C2_cex :
    (LoadEnv.mk false true (Except.ok ()) (Except.ok ())).realesrganFileExists = true ∧
    (LoadEnv.mk false true (Except.ok ()) (Except.ok ())).realesrganLoad = Except.ok () ∧
    (load_models (LoadEnv.mk false true (Except.ok ()) (Except.ok ()))
        (initState false)).upsampler = false :=
  ⟨rfl, rfl, rfl⟩

/-- C2 (amended): if either backend's weight file is missing, `load_models`
aborts the whole attempt before loading anything, so neither backend
becomes available and the state is unchanged; file-missing failures are
fatal to the whole registry, not independent per backend. -/
theorem spec_C2_thm (lenv : LoadEnv) (s : EnhancerState)
    (h : lenv.gfpganFileExists = false ∨ lenv.realesrganFileExists = false) :
    load_models lenv s = s := by
  unfold load_models
  by_cases hm : s.models_loaded = true
  · rw [if_pos hm]
  · rw [if_neg hm]
    rcases h with h | h
    · rw [if_pos h]
    · by_cases hg : lenv.gfpganFileExists = false
      · rw [if_pos hg]
      · rw [if_neg hg, if_pos h]

/-- Witness for the amended C2 at a concrete missing-file environment. -/
theorem spec_C2_witness :
    ((LoadEnv.mk false true (Except.ok ()) (Except.ok ())).gfpganFileExists = false ∨
      (LoadEnv.mk false true (Except.ok ()) (Except.ok ())).realesrganFileExists = false) ∧
    load_models (LoadEnv.mk false true (Except.ok ()) (Except.ok ())) (initState true) =
      initState true :=
  ⟨Or.inl rfl, spec_C2_thm _ _ (Or.inl rfl)⟩

/-- C3 counterexample: after a first call whose load attempt failed
(missing weight files), `models_loaded` is still `false`, and a second
call performs a fresh load attempt that changes the state — so subsequent
calls after a *failed* attempt are not no-ops. -/
theorem spec_C3_cex :
    (load_models (LoadEnv.mk false false (Except.ok ()) (Except.ok ()))
        (initState false)).models_loaded = false ∧
    load_models (LoadEnv.mk true true (Except.ok ()) (Except.ok ()))
        (load_models (LoadEnv.mk false false (Except.ok ()) (Except.ok ())) (initState false)) ≠
      load_models (LoadEnv.mk false false (Except.ok ()) (Except.ok ())) (initState false) :=
  ⟨rfl, by decide⟩

/-- C3 (amended): `load_models` is a guaranteed no-op only after a
*successful* attempt (`models_loaded = true`); after a failed attempt the
guard flag remains `false` and every subsequent call retries the load. -/
theorem spec_C3_thm (lenv : LoadEnv) (s : EnhancerState)
    (h : s.models_loaded = true) :
    load_models lenv s = s := by
  unfold load_models
  rw [if_pos h]

/-- Witness for the amended C3 at a concrete fully-loaded state. -/
theorem spec_C3_witness :
    (EnhancerState.mk true true Device.cpu true).models_loaded = true ∧
    load_models (LoadEnv.mk false false (Except.ok ()) (Except.ok ()))
        (EnhancerState.mk true true Device.cpu true) =
      EnhancerState.mk true true Device.cpu true :=
  ⟨rfl, spec_C3_thm _ _ rfl⟩

/-- C5: for strengths in [1,10] the FaceEnhancement neural-path blend
weight is `min(0.5 + strength/20, 0.9)`: monotonic non-decreasing,
bounded in [0.5, 0.9], with weight(1) = 0.55 and weight(10) = 0.9. -/
theorem spec_C5 (s1 s2 : Int) (h1 : 1 ≤ s1) (h12 : s1 ≤ s2) (h2 : s2 ≤ 10) :
    blendWeight s1 ≤ blendWeight s2 ∧
    1/2 ≤ blendWeight s1 ∧ blendWeight s2 ≤ 9/10 ∧
    blendWeight 1 = 11/20 ∧ blendWeight 10 = 9/10 := by
  refine ⟨?_, ?_, min_le_right _ _, ?_, ?_⟩
  · unfold blendWeight
    have hc : (s1 : ℚ) ≤ (s2 : ℚ) := by exact_mod_cast h12
    exact min_le_min (by linarith) le_rfl
  · unfold blendWeight
    have hc : (1 : ℚ) ≤ (s1 : ℚ) := by exact_mod_cast h1
    exact le_min (by linarith) (by norm_num)
  · unfold blendWeight
    rw [min_eq_left (by norm_num)]
    norm_num
  · unfold blendWeight
    rw [min_eq_right (by norm_num)]

/-- Witness for C5 at strengths 2 and 7. -/
theorem spec_C5_witness :
    ((1 : Int) ≤ 2 ∧ (2 : Int) ≤ 7 ∧ (7 : Int) ≤ 10) ∧
    (blendWeight 2 ≤ blendWeight 7 ∧
      1/2 ≤ blendWeight 2 ∧ blendWeight 7 ≤ 9/10 ∧
      blendWeight 1 = 11/20 ∧ blendWeight 10 = 9/10) :=
  ⟨⟨by norm_num, by norm_num, by norm_num⟩,
    spec_C5 2 7 (by norm_num) (by norm_num) (by norm_num)⟩

/-- C8: an operation name outside the six supported ones falls through the
whole `elif` chain to `output = img_array`, so `enhance_image` returns an
image identical to the input and (being total in the embedding, with the
whole dispatch inside the `try`) raises nothing. -/
theorem spec_C8 (lenv : LoadEnv) (env : Env) (s : EnhancerState) (img : Img)
    (ty : String) (strength : Int)
    (h1 : ty ≠ "Super Resolution") (h2 : ty ≠ "Face Enhancement")
    (h3 : ty ≠ "Denoise") (h4 : ty ≠ "Sharpen")
    (h5 : ty ≠ "Remove Background") (h6 : ty ≠ "Color Correction") :
    enhance_image lenv env s img ty strength = img := by
  unfold enhance_image enhance_try
  rw [if_neg h1, if_neg h2, if_neg h3, if_neg h4, if_neg h5, if_neg h6]

/-- Witness for C8 at the unsupported operation name "Sparkle". -/
theorem spec_C8_witness :
    (("Sparkle" : String) ≠ "Super Resolution" ∧ ("Sparkle" : String) ≠ "Face Enhancement" ∧
      ("Sparkle" : String) ≠ "Denoise" ∧ ("Sparkle" : String) ≠ "Sharpen" ∧
      ("Sparkle" : String) ≠ "Remove Background" ∧ ("Sparkle" : String) ≠ "Color Correction") ∧
    enhance_image (LoadEnv.mk false false (Except.ok ()) (Except.ok ())) idEnv
        (initState false) (Img.mk 2 2 3 [9]) "Sparkle" 5 = Img.mk 2 2 3 [9] :=
  ⟨⟨by decide, by decide, by decide, by decide, by decide, by decide⟩,
    spec_C8 _ _ _ _ _ 5 (by decide) (by decide) (by decide) (by decide) (by decide) (by decide)⟩

/-- C9: the Sharpen, Super Resolution, Remove Background and Color
Correction branches never read `strength`, so for any two strengths in
[1,10] these operations produce identical outputs; only the Face
Enhancement neural path (blend weight) and Denoise (filter force) pass
`strength` to a primitive. -/
theorem spec_C9 (lenv : LoadEnv) (env : Env) (s : EnhancerState) (img : Img)
    (ty : String) (s1 s2 : Int)
    (hty : ty = "Sharpen" ∨ ty = "Super Resolution" ∨
      ty = "Remove Background" ∨ ty = "Color Correction")
    (hs1 : 1 ≤ s1 ∧ s1 ≤ 10) (hs2 : 1 ≤ s2 ∧ s2 ≤ 10) :
    enhance_image lenv env s img ty s1 = enhance_image lenv env s img ty s2 := by
  rcases hty with rfl | rfl | rfl | rfl <;> rfl

/-- Witness for C9 at Sharpen with strengths 1 and 9. -/
theorem spec_C9_witness :
    (("Sharpen" : String) = "Sharpen" ∨ ("Sharpen" : String) = "Super Resolution" ∨
      ("Sharpen" : String) = "Remove Background" ∨ ("Sharpen" : String) = "Color Correction") ∧
    ((1 : Int) ≤ 1 ∧ (1 : Int) ≤ 10) ∧ ((1 : Int) ≤ 9 ∧ (9 : Int) ≤ 10) ∧
    enhance_image (LoadEnv.mk false false (Except.ok ()) (Except.ok ())) idEnv
        (initState false) (Img.mk 2 2 3 [7]) "Sharpen" 1 =
      enhance_image (LoadEnv.mk false false (Except.ok ()) (Except.ok ())) idEnv
        (initState false) (Img.mk 2 2 3 [7]) "Sharpen" 9 :=
  ⟨Or.inl rfl, ⟨by norm_num, by norm_num⟩, ⟨by norm_num, by norm_num⟩,
    spec_C9 _ _ _ _ _ 1 9 (Or.inl rfl) ⟨by norm_num, by norm_num⟩ ⟨by norm_num, by norm_num⟩⟩

/-- C1 failing-input evaluation: with the super-resolution backend loaded
and `upsampler.enhance` raising (environment `envSwap`), `enhance_image`
catches the exception but returns the current `img_array` — which was
rebound to the RGB→BGR-converted, float-normalized intermediate inside
the `try` — rather than the original input: the 1×1 red pixel comes back
as a blue pixel, not byte-identical to the input. -/
theorem spec_C1_eval :
    enhance_image (LoadEnv.mk true true (Except.ok ()) (Except.ok ())) envSwap
        (EnhancerState.mk true true Device.cpu true)
        (Img.mk 1 1 3 [255, 0, 0]) "Super Resolution" 5 = Img.mk 1 1 3 [0, 0, 255] ∧
    Img.mk 1 1 3 [0, 0, 255] ≠ Img.mk 1 1 3 [255, 0, 0] :=
  ⟨rfl, by decide⟩

/-- C4: when the super-resolution backend is not loaded after the
`load_models` call, the Super Resolution branch is exactly
`cv2.resize(img, (width*2, height*2), interpolation=cv2.INTER_CUBIC)`;
with the documented resize contract, an H×W×3 input yields the
2H×2W×3 bicubic upscale. -/
theorem spec_C4 (lenv : LoadEnv) (env : Env) (s : EnhancerState) (img r : Img)
    (strength : Int) (hspec : EnvSpec env)
    (hh : 1 ≤ img.h) (hw : 1 ≤ img.w) (hc : img.c = 3)
    (hup : (load_models lenv s).upsampler = false)
    (hres : env.resize img (img.w * 2) (img.h * 2) Interp.INTER_CUBIC = Except.ok r) :
    enhance_image lenv env s img "Super Resolution" strength = r ∧
    r.h = 2 * img.h ∧ r.w = 2 * img.w ∧ r.c = 3 := by
  obtain ⟨hrw, hrh, hrc⟩ := hspec.resize_shape _ _ _ _ _ hres
  refine ⟨?_, by omega, by omega, hrc.trans hc⟩
  unfold enhance_image enhance_try
  rw [if_pos rfl, hup, if_neg (by decide), hres]

/-- Witness for C4 at a 100×100 RGB image in the benign environment. -/
theorem spec_C4_witness :
    EnvSpec idEnv ∧
    1 ≤ (Img.mk 100 100 3 []).h ∧ 1 ≤ (Img.mk 100 100 3 []).w ∧
    (Img.mk 100 100 3 []).c = 3 ∧
    (load_models (LoadEnv.mk false false (Except.ok ()) (Except.ok ()))
      (initState false)).upsampler = false ∧
    idEnv.resize (Img.mk 100 100 3 []) ((Img.mk 100 100 3 []).w * 2)
      ((Img.mk 100 100 3 []).h * 2) Interp.INTER_CUBIC = Except.ok (Img.mk 200 200 3 []) ∧
    (enhance_image (LoadEnv.mk false false (Except.ok ()) (Except.ok ())) idEnv
        (initState false) (Img.mk 100 100 3 []) "Super Resolution" 7 = Img.mk 200 200 3 [] ∧
      (Img.mk 200 200 3 []).h = 2 * (Img.mk 100 100 3 []).h ∧
      (Img.mk 200 200 3 []).w = 2 * (Img.mk 100 100 3 []).w ∧
      (Img.mk 200 200 3 []).c = 3) :=
  ⟨envSpec_idEnv, by norm_num, by norm_num, rfl, rfl, rfl,
    spec_C4 _ _ _ _ _ 7 envSpec_idEnv (by norm_num) (by norm_num) rfl rfl rfl⟩

/-- C10 counterexample: the one-backend state (face backend loaded,
super-resolution backend not) is reachable — starting from a fresh
instance, one `load_models` call in which both weight files exist, the
`GFPGANer` constructor succeeds, and the `RealESRGANer` load then raises
leaves `gfpgan_model` assigned, `upsampler = None` and
`models_loaded = False`, because the single `try` block is not atomic. -/
theorem spec_C10_cex :
    Reachable (EnhancerState.mk true false Device.cpu false) ∧
    (EnhancerState.mk true false Device.cpu false).gfpgan_model = true ∧
    (EnhancerState.mk true false Device.cpu false).upsampler = false := by
  refine ⟨?_, rfl, rfl⟩
  exact Reachable.step (LoadEnv.mk true true (Except.ok ()) (Except.error ())) _
    (Reachable.start false)

/-- C10 (amended): in every reachable state, a loaded super-resolution
backend implies a loaded face backend, `models_loaded` implies both
backends loaded, and both backends loaded implies `models_loaded`
(nothing can raise between the `upsampler` assignment and
`models_loaded = True`, so the both-loaded-but-unflagged state stays
unreachable); availability is nevertheless not all-or-nothing: the
converse direction fails, since a state with only the face backend
loaded is reachable (see the counterexample) because `gfpgan_model` is
assigned before the RealESRGAN load can fail inside the same `try`
block. -/
theorem spec_C10_thm (s : EnhancerState) (hr : Reachable s) :
    (s.upsampler = true → s.gfpgan_model = true) ∧
    (s.models_loaded = true → s.gfpgan_model = true ∧ s.upsampler = true) ∧
    (s.gfpgan_model = true ∧ s.upsampler = true → s.models_loaded = true) := by
  induction hr with
  | start cuda => simp [initState]
  | step lenv s hs ih =>
    unfold load_models
    by_cases hm : s.models_loaded = true
    · rw [if_pos hm]; exact ih
    · rw [if_neg hm]
      by_cases hg : lenv.gfpganFileExists = false
      · rw [if_pos hg]; exact ih
      · rw [if_neg hg]
        by_cases hre : lenv.realesrganFileExists = false
        · rw [if_pos hre]; exact ih
        · rw [if_neg hre]
          cases hgl : lenv.gfpganLoad with
          | error e => exact ih
          | ok u =>
            cases hrl : lenv.realesrganLoad with
            | error e =>
              refine ⟨fun _ => rfl, fun hml => absurd hml hm, fun hb => ?_⟩
              exact ih.2.2 ⟨ih.1 hb.2, hb.2⟩
            | ok u2 => exact ⟨fun _ => rfl, fun _ => ⟨rfl, rfl⟩, fun _ => rfl⟩

/-- Witness for the amended C10 at the freshly constructed state. -/
theorem spec_C10_witness :
    Reachable (initState false) ∧
    (((initState false).upsampler = true → (initState false).gfpgan_model = true) ∧
      ((initState false).models_loaded = true →
        (initState false).gfpgan_model = true ∧ (initState false).upsampler = true) ∧
      ((initState false).gfpgan_model = true ∧ (initState false).upsampler = true →
        (initState false).models_loaded = true)) :=
  ⟨Reachable.start false, spec_C10_thm _ (Reachable.start false)⟩

/-- Shape of the classical face-enhancement fallback output under the
OpenCV contracts: same height and width as the input, three channels
(forced by the `merge` of the three LAB planes). -/
theorem advanced_face_enhancement_shape (env : Env) (hspec : EnvSpec env)
    (i r : Img) (h : advanced_face_enhancement env i = Except.ok r) :
    r.h = i.h ∧ r.w = i.w ∧ r.c = 3 := by
  unfold advanced_face_enhancement at h
  split at h
  · exact Except.noConfusion h
  · rename_i lab hA
    split at h
    · exact Except.noConfusion h
    · rename_i l a b hB
      split at h
      · exact Except.noConfusion h
      · rename_i cl hC
        split at h
        · exact Except.noConfusion h
        · rename_i limg hD
          split at h
          · exact Except.noConfusion h
          · rename_i output hE
            split at h
            · exact Except.noConfusion h
            · rename_i output2 hF
              obtain ⟨a1, a2, a3⟩ := hspec.cvtColor_shape _ _ _ hA
              obtain ⟨⟨l1, l2, l3⟩, _, _⟩ := hspec.split3_shape _ _ _ _ hB
              obtain ⟨c1, c2, c3⟩ := hspec.clahe_shape _ _ _ _ _ hC
              obtain ⟨m1, m2, m3⟩ := hspec.merge3_shape _ _ _ _ hD
              obtain ⟨e1, e2, e3⟩ := hspec.cvtColor_shape _ _ _ hE
              obtain ⟨f1, f2, f3⟩ := hspec.filter2D_shape _ _ _ _ hF
              obtain ⟨g1, g2, g3⟩ := hspec.bilateral_shape _ _ _ _ _ h
              refine ⟨?_, ?_, ?_⟩ <;> omega

/-- C6 counterexample: with the face-restoration backend loaded —
`GFPGANer` is constructed with `upscale=2`, modelled by `envUp2` — Face
Enhancement, an operation other than Super Resolution and Remove
Background, doubles the image height instead of preserving it. -/
theorem spec_C6_cex :
    (enhance_image (LoadEnv.mk true true (Except.ok ()) (Except.ok ())) envUp2
        (EnhancerState.mk true true Device.cpu true)
        (Img.mk 1 1 3 [0, 0, 0]) "Face Enhancement" 5).h = 2 ∧
    (Img.mk 1 1 3 [0, 0, 0]).h = 1 :=
  ⟨rfl, rfl⟩

/-- C6 (amended): Denoise, Sharpen and Color Correction preserve height,
width and the 3-channel count in *every* backend state, and Face
Enhancement does so whenever the face-restoration backend is not loaded;
with the face backend loaded, Face Enhancement instead follows GFPGAN's
configured 2× upscale of H and W (see the counterexample).  Moreover no
operation other than Remove Background can add an alpha channel: Super
Resolution and Face Enhancement keep exactly 3 channels in both their
neural and fallback paths, under the collaborators' documented
channel-preservation contracts (numpy dtype conversions keep the array
shape; RealESRGAN is built with `num_out_ch=3`; GFPGAN returns a
3-channel BGR image). -/
theorem spec_C6_thm (lenv : LoadEnv) (env : Env) (s : EnhancerState) (img : Img)
    (ty : String) (strength : Int) (hspec : EnvSpec env)
    (hty : ty = "Denoise" ∨ ty = "Sharpen" ∨ ty = "Color Correction" ∨
      (ty = "Face Enhancement" ∧ (load_models lenv s).gfpgan_model = false))
    (hc : img.c = 3)
    (hAstype : ∀ i r, env.astypeF32div255 i = Except.ok r → r.c = i.c)
    (hClip : ∀ i r, env.times255clipU8 i = Except.ok r → r.c = i.c)
    (hUps : ∀ i o r, env.upsamplerEnhance i o = Except.ok r → r.c = i.c)
    (hGfp : ∀ i b1 b2 b3 w r, env.gfpganEnhance i b1 b2 b3 w = Except.ok r → r.c = i.c) :
    ((enhance_image lenv env s img ty strength).h = img.h ∧
      (enhance_image lenv env s img ty strength).w = img.w ∧
      (enhance_image lenv env s img ty strength).c = 3) ∧
    (enhance_image lenv env s img "Super Resolution" strength).c = 3 ∧
    (enhance_image lenv env s img "Face Enhancement" strength).c = 3 := by
  refine ⟨?_, ?_, ?_⟩
  · rcases hty with rfl | rfl | rfl | ⟨rfl, hface⟩
    · unfold enhance_image enhance_try
      rw [if_neg (by decide), if_neg (by decide), if_pos rfl]
      cases hA : env.fastNlMeansDenoisingColored img strength strength 7 21 with
      | error e => exact ⟨rfl, rfl, hc⟩
      | ok out =>
        obtain ⟨h1, h2, h3⟩ := hspec.fastNl_shape _ _ _ _ _ _ hA
        exact ⟨h1, h2, h3.trans hc⟩
    · unfold enhance_image enhance_try
      rw [if_neg (by decide), if_neg (by decide), if_neg (by decide), if_pos rfl]
      cases hA : env.filter2D img (-1) [[0,-1,0],[-1,5,-1],[0,-1,0]] with
      | error e => exact ⟨rfl, rfl, hc⟩
      | ok out =>
        obtain ⟨h1, h2, h3⟩ := hspec.filter2D_shape _ _ _ _ hA
        exact ⟨h1, h2, h3.trans hc⟩
    · unfold enhance_image enhance_try
      rw [if_neg (by decide), if_neg (by decide), if_neg (by decide), if_neg (by decide),
        if_neg (by decide), if_pos rfl]
      cases hA : env.cvtColor img ColorCode.RGB2LAB with
      | error e => exact ⟨rfl, rfl, hc⟩
      | ok lab =>
        dsimp only
        cases hB : env.split3 lab with
        | error e => exact ⟨rfl, rfl, hc⟩
        | ok t =>
          obtain ⟨l, a, b⟩ := t
          dsimp only
          cases hC : env.claheApply 3 8 8 l with
          | error e => exact ⟨rfl, rfl, hc⟩
          | ok cl =>
            dsimp only
            cases hD : env.merge3 cl a b with
            | error e => exact ⟨rfl, rfl, hc⟩
            | ok limg =>
              dsimp only
              cases hE : env.cvtColor limg ColorCode.LAB2RGB with
              | error e => exact ⟨rfl, rfl, hc⟩
              | ok out =>
                dsimp only
                obtain ⟨a1, a2, a3⟩ := hspec.cvtColor_shape _ _ _ hA
                obtain ⟨⟨l1, l2, l3⟩, _, _⟩ := hspec.split3_shape _ _ _ _ hB
                obtain ⟨c1, c2, c3⟩ := hspec.clahe_shape _ _ _ _ _ hC
                obtain ⟨m1, m2, m3⟩ := hspec.merge3_shape _ _ _ _ hD
                obtain ⟨e1, e2, e3⟩ := hspec.cvtColor_shape _ _ _ hE
                refine ⟨?_, ?_, ?_⟩ <;> omega
    · unfold enhance_image enhance_try
      rw [if_neg (by decide), if_pos rfl, hface, if_neg (by decide)]
      cases hA : advanced_face_enhancement env img with
      | error e => exact ⟨rfl, rfl, hc⟩
      | ok out => exact advanced_face_enhancement_shape env hspec img out hA
  · unfold enhance_image enhance_try
    rw [if_pos rfl]
    cases hup : (load_models lenv s).upsampler with
    | false =>
      rw [if_neg (by decide)]
      cases hR : env.resize img (img.w * 2) (img.h * 2) Interp.INTER_CUBIC with
      | error e => exact hc
      | ok r => exact ((hspec.resize_shape _ _ _ _ _ hR).2.2).trans hc
    | true =>
      rw [if_pos rfl]
      cases h1 : env.cvtColor img ColorCode.RGB2BGR with
      | error e => exact hc
      | ok a1 =>
        dsimp only
        have hca1 : a1.c = 3 := ((hspec.cvtColor_shape _ _ _ h1).2.2).trans hc
        cases h2 : env.astypeF32div255 a1 with
        | error e => exact hca1
        | ok a2 =>
          dsimp only
          have hca2 : a2.c = 3 := (hAstype _ _ h2).trans hca1
          cases h3 : env.upsamplerEnhance a2 4 with
          | error e => exact hca2
          | ok o1 =>
            dsimp only
            cases h4 : env.times255clipU8 o1 with
            | error e => exact hca2
            | ok o2 =>
              dsimp only
              cases h5 : env.cvtColor o2 ColorCode.BGR2RGB with
              | error e => exact hca2
              | ok o3 =>
                exact ((hspec.cvtColor_shape _ _ _ h5).2.2).trans
                  ((hClip _ _ h4).trans ((hUps _ _ _ h3).trans hca2))
  · unfold enhance_image enhance_try
    rw [if_neg (by decide), if_pos rfl]
    cases hgf : (load_models lenv s).gfpgan_model with
    | false =>
      rw [if_neg (by decide)]
      cases hA : advanced_face_enhancement env img with
      | error e => exact hc
      | ok out => exact (advanced_face_enhancement_shape env hspec img out hA).2.2
    | true =>
      rw [if_pos rfl]
      cases h1 : env.cvtColor img ColorCode.RGB2BGR with
      | error e => exact hc
      | ok a1 =>
        dsimp only
        have hca1 : a1.c = 3 := ((hspec.cvtColor_shape _ _ _ h1).2.2).trans hc
        cases h2 : env.gfpganEnhance a1 false false true (blendWeight strength) with
        | error e => exact hca1
        | ok o1 =>
          dsimp only
          cases h3 : env.cvtColor o1 ColorCode.BGR2RGB with
          | error e => exact hca1
          | ok o2 =>
            exact ((hspec.cvtColor_shape _ _ _ h3).2.2).trans
              ((hGfp _ _ _ _ _ _ h2).trans hca1)


/-- Witness for the amended C6: Sharpen on a 5×7×3 image in the benign
environment preserves the shape, and Super Resolution and Face
Enhancement keep 3 channels. -/
theorem spec_C6_witness :
    EnvSpec idEnv ∧
    (Img.mk 5 7 3 []).c = 3 ∧
    (((enhance_image (LoadEnv.mk false false (Except.ok ()) (Except.ok ())) idEnv
        (initState false) (Img.mk 5 7 3 []) "Sharpen" 5).h = (Img.mk 5 7 3 []).h ∧
      (enhance_image (LoadEnv.mk false false (Except.ok ()) (Except.ok ())) idEnv
        (initState false) (Img.mk 5 7 3 []) "Sharpen" 5).w = (Img.mk 5 7 3 []).w ∧
      (enhance_image (LoadEnv.mk false false (Except.ok ()) (Except.ok ())) idEnv
        (initState false) (Img.mk 5 7 3 []) "Sharpen" 5).c = 3) ∧
      (enhance_image (LoadEnv.mk false false (Except.ok ()) (Except.ok ())) idEnv
        (initState false) (Img.mk 5 7 3 []) "Super Resolution" 5).c = 3 ∧
      (enhance_image (LoadEnv.mk false false (Except.ok ()) (Except.ok ())) idEnv
        (initState false) (Img.mk 5 7 3 []) "Face Enhancement" 5).c = 3) :=
  ⟨envSpec_idEnv, rfl,
    spec_C6_thm (LoadEnv.mk false false (Except.ok ()) (Except.ok ())) idEnv
      (initState false) (Img.mk 5 7 3 []) "Sharpen" 5 envSpec_idEnv
      (Or.inr (Or.inl rfl)) rfl
      (by intro i r h; simp only [idEnv, Except.ok.injEq] at h; subst h; rfl)
      (by intro i r h; simp only [idEnv, Except.ok.injEq] at h; subst h; rfl)
      (by intro i o r h; simp only [idEnv, Except.ok.injEq] at h; subst h; rfl)
      (by intro i b1 b2 b3 w r h; simp only [idEnv, Except.ok.injEq] at h; subst h; rfl)⟩

/-- C7: when the face backend is unavailable after the `load_models`
call, Face Enhancement is exactly the three-stage fallback: (1) CLAHE on
the LAB luminance channel with clip limit 3.0 and 8×8 tiles — the same
parameters applied in the Color Correction branch, (2) `filter2D` with
the fixed 3×3 kernel `[[0,-1,0],[-1,5,-1],[0,-1,0]]` — the same kernel
as the Sharpen branch, (3) `bilateralFilter` with window 9 and sigmas
75/75; in that fixed order with no branching. -/
theorem spec_C7 (lenv : LoadEnv) (env : Env) (s : EnhancerState) (img : Img)
    (strength : Int)
    (hface : (load_models lenv s).gfpgan_model = false) :
    (enhance_image lenv env s img "Face Enhancement" strength =
      match advanced_face_enhancement env img with
      | Except.ok output => output
      | Except.error _ => img) ∧
    (advanced_face_enhancement env img =
      match env.cvtColor img ColorCode.RGB2LAB with
      | Except.error _ => Except.error ()
      | Except.ok lab =>
        match env.split3 lab with
        | Except.error _ => Except.error ()
        | Except.ok (l, a, b) =>
          match env.claheApply 3 8 8 l with
          | Except.error _ => Except.error ()
          | Except.ok cl =>
            match env.merge3 cl a b with
            | Except.error _ => Except.error ()
            | Except.ok limg =>
              match env.cvtColor limg ColorCode.LAB2RGB with
              | Except.error _ => Except.error ()
              | Except.ok output =>
                match env.filter2D output (-1) [[0,-1,0],[-1,5,-1],[0,-1,0]] with
                | Except.error _ => Except.error ()
                | Except.ok output2 =>
                  env.bilateralFilter output2 9 75 75) ∧
    (enhance_image lenv env s img "Color Correction" strength =
      match env.cvtColor img ColorCode.RGB2LAB with
      | Except.error _ => img
      | Except.ok lab =>
        match env.split3 lab with
        | Except.error _ => img
        | Except.ok (l, a, b) =>
          match env.claheApply 3 8 8 l with
          | Except.error _ => img
          | Except.ok cl =>
            match env.merge3 cl a b with
            | Except.error _ => img
            | Except.ok limg =>
              match env.cvtColor limg ColorCode.LAB2RGB with
              | Except.error _ => img
              | Except.ok output => output) ∧
    (enhance_image lenv env s img "Sharpen" strength =
      match env.filter2D img (-1) [[0,-1,0],[-1,5,-1],[0,-1,0]] with
      | Except.error _ => img
      | Except.ok output => output) := by
  refine ⟨?_, rfl, ?_, ?_⟩
  · unfold enhance_image enhance_try
    rw [if_neg (by decide), if_pos rfl, hface, if_neg (by decide)]
    cases hA : advanced_face_enhancement env img with
    | error e => rfl
    | ok out => rfl
  · unfold enhance_image enhance_try
    rw [if_neg (by decide), if_neg (by decide), if_neg (by decide), if_neg (by decide),
      if_neg (by decide), if_pos rfl]
    cases hA : env.cvtColor img ColorCode.RGB2LAB with
    | error e => rfl
    | ok lab =>
      dsimp only
      cases hB : env.split3 lab with
      | error e => rfl
      | ok t =>
        obtain ⟨l, a, b⟩ := t
        dsimp only
        cases hC : env.claheApply 3 8 8 l with
        | error e => rfl
        | ok cl =>
          dsimp only
          cases hD : env.merge3 cl a b with
          | error e => rfl
          | ok limg =>
            dsimp only
            cases hE : env.cvtColor limg ColorCode.LAB2RGB with
            | error e => rfl
            | ok output => rfl
  · unfold enhance_image enhance_try
    rw [if_neg (by decide), if_neg (by decide), if_neg (by decide), if_pos rfl]
    cases hF : env.filter2D img (-1) [[0,-1,0],[-1,5,-1],[0,-1,0]] with
    | error e => rfl
    | ok out => rfl

/-- Witness for C7: with no backend loaded, the fallback pipeline runs in
the benign environment and returns an image of the input's shape. -/
theorem spec_C7_witness :
    (load_models (LoadEnv.mk false false (Except.ok ()) (Except.ok ()))
      (initState false)).gfpgan_model = false ∧
    enhance_image (LoadEnv.mk false false (Except.ok ()) (Except.ok ())) idEnv
      (initState false) (Img.mk 2 2 3 []) "Face Enhancement" 5 = Img.mk 2 2 3 [] := by
  refine ⟨rfl, ?_⟩
  rw [(spec_C7 (LoadEnv.mk false false (Except.ok ()) (Except.ok ())) idEnv
    (initState false) (Img.mk 2 2 3 []) 5 rfl).1]
  rfl
